import Mathlib

/-!
Verification of the SYF hotel booking backend (Express/Supabase and
file-store variants).  The JavaScript handlers are shallowly embedded:
the JS numbers that occur on the booking path are integers or NaN
(`JSNum`), request-body values are `JSVal`, the `rooms` table or the
availability cache is an association list, and each HTTP handler becomes
a pure function from injected storage outcomes, current state and
request body to the response and the new state.
-/

namespace SyfHotel

/-- A JavaScript number as it occurs in this code base: an integer or
`NaN` (produced by `parseInt` on unparseable input and propagated by
arithmetic).  No fractional values arise on the booking paths. -/
inductive JSNum where
  | nan : JSNum
  | int : Int → JSNum
deriving DecidableEq, Repr

/-- A JavaScript request-body value. -/
inductive JSVal where
  | undef : JSVal
  | null : JSVal
  | bool : Bool → JSVal
  | num : JSNum → JSVal
  | str : String → JSVal
deriving DecidableEq, Repr

/-- JavaScript falsiness of the values occurring here. -/
def jsFalsy : JSVal → Bool
  | .undef => true
  | .null => true
  | .bool b => !b
  | .num .nan => true
  | .num (.int n) => n == 0
  | .str s => s == ""

/-- `a || b` in JavaScript. -/
def jsOr (a b : JSVal) : JSVal := if jsFalsy a then b else a

/-- Numeric value of a run of decimal digits. -/
def digitsVal (cs : List Char) : Nat :=
  cs.foldl (fun acc c => acc * 10 + (c.toNat - 48)) 0

/-- `parseInt` on a string: skip leading whitespace, an optional sign,
then a run of decimal digits; `NaN` when no digit follows.  (The `0x`
hexadecimal prefix of the real `parseInt` never occurs in this code base
and is not modelled.) -/
def parseIntStr (s : String) : JSNum :=
  let core := fun (l : List Char) (sign : Int) =>
    let ds := l.takeWhile Char.isDigit
    if ds.isEmpty then JSNum.nan else JSNum.int (sign * (digitsVal ds : Int))
  match s.data.dropWhile (fun c => c == ' ' || c == '\t' || c == '\n' || c == '\r') with
  | '-' :: rest => core rest (-1)
  | '+' :: rest => core rest 1
  | l => core l 1

/-- `parseInt` on a JavaScript value: a number passes through (`parseInt`
of an integer number is itself, of `NaN` is `NaN`), a string is parsed,
everything else (`undefined`, `null`, booleans) gives `NaN`. -/
def parseIntJS : JSVal → JSNum
  | .str s => parseIntStr s
  | .num n => n
  | _ => .nan

/-- `parseInt(x) || d` for a truthy integer default `d`: `NaN` and `0`
are falsy and fall through to the default. -/
def jsNumOr (n : JSNum) (d : Int) : Int :=
  match n with
  | .nan => d
  | .int k => if k = 0 then d else k

/-- Subtraction with `NaN` propagation. -/
def jsSub : JSNum → JSNum → JSNum
  | .int a, .int b => .int (a - b)
  | _, _ => .nan

/-- The `<` comparison: any comparison against `NaN` is false. -/
def jsLt : JSNum → JSNum → Bool
  | .int a, .int b => a < b
  | _, _ => false

/-- Template-literal stringification of a `JSNum`. -/
def jsNumToStr : JSNum → String
  | .nan => "NaN"
  | .int k => toString k

/-- JavaScript `String.prototype.trim`: strip leading and trailing
whitespace. -/
def jsTrim (s : String) : String :=
  ⟨((s.data.dropWhile Char.isWhitespace).reverse.dropWhile Char.isWhitespace).reverse⟩

/-- The `rooms` table / availability map: association list from
`room_type` to `available`. -/
abbrev Rooms := List (String × Int)

/-- `select('available').eq('room_type', rt).single()`: the first row
whose `room_type` is `rt`. -/
def findAvail (rooms : Rooms) (rt : String) : Option Int :=
  (rooms.find? (fun p => p.1 == rt)).map (·.2)

/-- `update({available: v}).eq('room_type', rt)`: every row whose
`room_type` equals `rt` gets `available = v`. -/
def setAvail (rooms : Rooms) (rt : String) (v : Int) : Rooms :=
  rooms.map (fun p => if p.1 == rt then (p.1, v) else p)

/-- The booking request body, with the alias fields the handlers read.
`room_type` is the string used in the `eq('room_type', …)` filter and as
the cache key (an absent room type is a string matching no row). -/
structure Req where
  room_type : String
  quantity : JSVal
  numberOfRooms : JSVal
  guest_name : JSVal
  full_name : JSVal
  phone : JSVal
  contact_number : JSVal
  check_in : JSVal
  check_out : JSVal
  total_amount : JSVal
  payment_channel : JSVal
  reference_number : JSVal
  transaction_id : JSVal
  valid_id : JSVal
  validIdAlias : JSVal
  coming_with_id : JSVal
  additional_requests : JSVal
deriving DecidableEq, Repr

/-- `server.js` line 115: `coming_with_id: b.valid_id === 'Yes'`. -/
def serverJsComingWithId (b : Req) : Bool := b.valid_id == .str "Yes"

/-- `part_001` lines 181–182:
`coming_with_id === true || coming_with_id === 'true' ||`
`req.body['Valid Id'] === 'Yes' || valid_id === 'Yes'`. -/
def part001ComingWithId (b : Req) : Bool :=
  b.coming_with_id == .bool true || b.coming_with_id == .str "true" ||
    b.validIdAlias == .str "Yes" || b.valid_id == .str "Yes"

/-- The booking record `server.js` inserts (lines 105–117). -/
structure SbRecord where
  full_name : JSVal
  phone : JSVal
  room_category : String
  number_of_rooms : Int
  check_in : JSVal
  check_out : JSVal
  payment_amount : Int
  payment_channel : JSVal
  transaction_id : JSVal
  coming_with_id : Bool
  additional_requests : JSVal
deriving DecidableEq, Repr

/-- Record construction of `server.js` lines 105–117. -/
def mkSbRecord (b : Req) (qty : Int) : SbRecord :=
  { full_name := jsOr b.guest_name b.full_name
    phone := jsOr b.contact_number b.phone
    room_category := b.room_type
    number_of_rooms := qty
    check_in := b.check_in
    check_out := b.check_out
    payment_amount := jsNumOr (parseIntJS b.total_amount) 0
    payment_channel := b.payment_channel
    transaction_id := jsOr b.reference_number b.transaction_id
    coming_with_id := serverJsComingWithId b
    additional_requests := b.additional_requests }

/-- HTTP response of a Supabase booking handler. -/
inductive Resp where
  | notFound : String → Resp
  | badRequest : String → Resp
  | serverError : String → String → Resp
  | ok : String → Resp
deriving DecidableEq, Repr

/-- Outcome of the three Supabase writes in the booking handler: `none`
means the call succeeded, `some msg` that it returned an error carrying
that message.  A failed write leaves the table unchanged. -/
structure SbFail where
  updErr : Option String
  insErr : Option String
  rollbackErr : Option String
deriving DecidableEq, Repr

/-- All storage calls succeed. -/
def noFail : SbFail := ⟨none, none, none⟩

/-- `POST /api/bookings` of `server.js` (lines 79–132): fetch the room,
default the quantity to 1, check the stock, decrement it, insert the
record, roll the decrement back on insert failure (the result of the
rollback write is discarded by the code), and map thrown errors to a 500
whose `details` is the cause's message. -/
def serverJsBooking (f : SbFail) (rooms : Rooms) (bookings : List SbRecord) (b : Req) :
    Resp × Rooms × List SbRecord :=
  match findAvail rooms b.room_type with
  | none => (.notFound "Room type not found", rooms, bookings)
  | some avail =>
    let qty := jsNumOr (parseIntJS b.quantity) 1
    if avail < qty then (.badRequest "Room category sold out", rooms, bookings)
    else
      match f.updErr with
      | some e => (.serverError "Internal server error" e, rooms, bookings)
      | none =>
        let rooms1 := setAvail rooms b.room_type (avail - qty)
        match f.insErr with
        | some e =>
          let rooms2 :=
            match f.rollbackErr with
            | some _ => rooms1
            | none => setAvail rooms1 b.room_type avail
          (.serverError "Internal server error" e, rooms2, bookings)
        | none => (.ok "Booking confirmed", rooms1, bookings ++ [mkSbRecord b qty])

/-- The check-and-decrement step of the Supabase booking handlers
(`server.js` lines 85–100): `none` when the room type is unknown or the
stock is below the quantity; otherwise the captured pre-decrement value
together with the table holding the decremented stock. -/
def reserve (rooms : Rooms) (rt : String) (q : Int) : Option (Int × Rooms) :=
  match findAvail rooms rt with
  | none => none
  | some avail =>
    if avail < q then none else some (avail, setAvail rooms rt (avail - q))

/-- The compensation write of the Supabase booking handlers (`server.js`
line 123): write back the captured pre-decrement value (equivalent to
adding the reserved quantity back onto the decremented stock). -/
def release (rooms : Rooms) (rt : String) (prev : Int) : Rooms :=
  setAvail rooms rt prev

/-- The record the file-store variant saves: the raw field values with
defaults applied by `||` chains (part_000 lines 126–141; the generated
`id`, `timestamp` and `screenshot_path` fields come from the clock and
the upload middleware and are left out of the model). -/
structure FsBooking where
  room_type : String
  quantity : JSVal
  check_in : JSVal
  check_out : JSVal
  guest_name : JSVal
  contact_number : JSVal
  valid_id : JSVal
  total_amount : JSVal
  payment_channel : JSVal
  reference_number : JSVal
  additional_requests : JSVal
deriving DecidableEq, Repr

/-- The availability cache of the file-store variant: its values are JS
numbers and can become `NaN`. -/
abbrev FsRooms := List (String × JSNum)

/-- `availabilityCache[rt]`. -/
def fsFind (rooms : FsRooms) (rt : String) : Option JSNum :=
  (rooms.find? (fun p => p.1 == rt)).map (·.2)

/-- `availabilityCache[rt] = v`. -/
def fsSet (rooms : FsRooms) (rt : String) (v : JSNum) : FsRooms :=
  rooms.map (fun p => if p.1 == rt then (p.1, v) else p)

/-- Response of the file-store booking handler. -/
inductive FsResp where
  | ok : FsBooking → FsResp
  | badRequest : String → FsResp
deriving DecidableEq, Repr

/-- `POST /api/bookings` of the file-store variant (part_000 lines
125–164): build the record from alias chains, parse the quantity, and —
only when the room type is a known cache key — check and decrement the
cached stock; the record is always prepended to the bookings cache and
returned with success.  `parseInt` of a cached number is that number
again, so `currentStock` is the cached value itself. -/
def fileStoreBooking (rooms : FsRooms) (bookings : List FsBooking) (b : Req) :
    FsResp × FsRooms × List FsBooking :=
  let booking : FsBooking :=
    { room_type := b.room_type
      quantity := jsOr (jsOr b.numberOfRooms b.quantity) (.num (.int 1))
      check_in := b.check_in
      check_out := b.check_out
      guest_name := b.guest_name
      contact_number := b.contact_number
      valid_id := b.valid_id
      total_amount := b.total_amount
      payment_channel := b.payment_channel
      reference_number := b.reference_number
      additional_requests := b.additional_requests }
  let requestedQty := parseIntJS booking.quantity
  match fsFind rooms booking.room_type with
  | some currentStock =>
    if jsLt currentStock requestedQty then
      (.badRequest ("Sorry, not enough rooms. Only " ++ jsNumToStr currentStock ++
        " left for " ++ booking.room_type ++ "."), rooms, bookings)
    else
      (.ok booking, fsSet rooms booking.room_type (jsSub currentStock requestedQty),
        booking :: bookings)
  | none => (.ok booking, rooms, booking :: bookings)

/-- The booking record part_001 builds and inserts (lines 174–187): the
quantity and payment amount are `parseInt` applied to the raw alias
chain (so they can be `NaN`), `coming_with_id` is the four-way test. -/
structure P1Record where
  room_category : String
  number_of_rooms : JSNum
  check_in : JSVal
  check_out : JSVal
  full_name : JSVal
  phone : JSVal
  coming_with_id : Bool
  payment_amount : JSNum
  payment_channel : JSVal
  transaction_id : JSVal
  additional_requests : JSVal
deriving DecidableEq, Repr

/-- Record construction of part_001 lines 174–187.  Each `||` chain over
alternate spellings of one logical field is collapsed onto the canonical
`Req` field(s); the room-category chain resolves to the string
`Req.room_type`. -/
def mkP1Record (b : Req) : P1Record :=
  { room_category := b.room_type
    number_of_rooms := parseIntJS (jsOr (jsOr b.numberOfRooms b.quantity) (.num (.int 1)))
    check_in := jsOr b.check_in (.str "")
    check_out := jsOr b.check_out (.str "")
    full_name := jsOr (jsOr b.full_name b.guest_name) (.str "")
    phone := jsOr (jsOr b.phone b.contact_number) (.str "")
    coming_with_id := part001ComingWithId b
    payment_amount := parseIntJS (jsOr b.total_amount (.num (.int 0)))
    payment_channel := jsOr b.payment_channel (.str "")
    transaction_id := jsOr (jsOr b.transaction_id b.reference_number) (.str "")
    additional_requests := jsOr b.additional_requests (.str "") }

/-- `POST /api/bookings` of part_001 (lines 167–266): build the record,
fetch the room with `.single()` — when no row matches, the returned
error (whose client-produced message is the `fetchErr` parameter) is
thrown and caught into the generic 500 `'Failed to process booking'` —
then check the stock (`NaN` quantities pass vacuously), decrement,
insert, and on insert failure roll back (result discarded) and answer
the same generic 500.  The table values travel as JS numbers, so a
`NaN` stock can be written back.  The success JSON also carries the
inserted booking and the remaining count; the model reflects them in
the returned state. -/
def part001Booking (f : SbFail) (fetchErr : String) (rooms : FsRooms)
    (bookings : List P1Record) (b : Req) : Resp × FsRooms × List P1Record :=
  let booking := mkP1Record b
  let requestedQty := booking.number_of_rooms
  match fsFind rooms b.room_type with
  | none => (.serverError "Failed to process booking" fetchErr, rooms, bookings)
  | some currentStock =>
    if jsLt currentStock requestedQty then
      (.badRequest ("Sorry, not enough rooms available. Only " ++ jsNumToStr currentStock ++
        " " ++ b.room_type ++ "(s) remaining."), rooms, bookings)
    else
      match f.updErr with
      | some e => (.serverError "Failed to process booking" e, rooms, bookings)
      | none =>
        let rooms1 := fsSet rooms b.room_type (jsSub currentStock requestedQty)
        match f.insErr with
        | some e =>
          let rooms2 :=
            match f.rollbackErr with
            | some _ => rooms1
            | none => fsSet rooms1 b.room_type currentStock
          (.serverError "Failed to process booking" e, rooms2, bookings)
        | none =>
          (.ok "Booking confirmed! Your reservation has been saved.", rooms1,
            bookings ++ [booking])

/-- Response of `server.js`'s bulk update. -/
inductive BulkResp where
  | okAll : String → BulkResp
  | multiStatus : Bool → List String → BulkResp
deriving DecidableEq, Repr

/-- `POST /api/rooms/bulk-update` of `server.js` (lines 135–159): for
each entry, write `parseInt(count) || 0` to the rows matching the
trimmed room name; collect per-entry outcomes (`dbErr` injects a storage
error per trimmed room name); answer 207 with the error list when any
entry failed, else a success message.  A write matching no row is not an
error. -/
def serverJsBulkUpdate (dbErr : String → Option String) (rooms : Rooms)
    (updates : List (String × JSVal)) : BulkResp × Rooms :=
  let step := fun (acc : Rooms × List String × List String) (u : String × JSVal) =>
    match dbErr (jsTrim u.1) with
    | some e => (acc.1, acc.2.1, acc.2.2 ++ [u.1 ++ ": " ++ e])
    | none =>
      (setAvail acc.1 (jsTrim u.1) (jsNumOr (parseIntJS u.2) 0), acc.2.1 ++ [u.1], acc.2.2)
  let out := updates.foldl step (rooms, [], [])
  if out.2.2.isEmpty then (.okAll "All rooms synced", out.1)
  else (.multiStatus (out.2.1.length != 0) out.2.2, out.1)

/-- Per-entry outcome counters of part_000's Supabase bulk update. -/
structure Stats where
  success : Nat
  failed : Nat
  errors : List String
deriving DecidableEq, Repr

/-- Response of part_000's Supabase bulk update. -/
inductive P0BulkResp where
  | okAll : String → P0BulkResp
  | multiStatus : Bool → String → Stats → P0BulkResp
  | badRequest : String → P0BulkResp
deriving DecidableEq, Repr

/-- One iteration of the loop of part_000's Supabase bulk update (lines
354–381): a non-numeric count is recorded as `"<room>: Invalid number"`
and skipped, a storage error is recorded, and otherwise the trimmed
room's rows are set to the parsed count. -/
def part000Step (dbErr : String → Option String) (acc : Rooms × Stats)
    (u : String × JSVal) : Rooms × Stats :=
  let trimmed := jsTrim u.1
  match parseIntJS u.2 with
  | .nan =>
    (acc.1, { acc.2 with
              failed := acc.2.failed + 1,
              errors := acc.2.errors ++ [trimmed ++ ": Invalid number"] })
  | .int v =>
    match dbErr trimmed with
    | some e =>
      (acc.1, { acc.2 with
                failed := acc.2.failed + 1,
                errors := acc.2.errors ++ [trimmed ++ ": " ++ e] })
    | none => (setAvail acc.1 trimmed v, { acc.2 with success := acc.2.success + 1 })

/-- The loop of part_000's Supabase bulk update (lines 354–381): each
entry is processed independently by `part000Step`; no entry aborts the
iteration. -/
def part000BulkLoop (dbErr : String → Option String) (rooms : Rooms)
    (updates : List (String × JSVal)) : Rooms × Stats :=
  updates.foldl (part000Step dbErr) (rooms, ⟨0, 0, []⟩)

/-- `POST /api/rooms/bulk-update` of part_000's Supabase variant (lines
342–399): reject an empty payload, run the loop, answer 207 with the
stats when any entry failed, else a success message. -/
def part000BulkUpdate (dbErr : String → Option String) (rooms : Rooms)
    (updates : List (String × JSVal)) : P0BulkResp × Rooms :=
  if updates.isEmpty then (.badRequest "No update data provided", rooms)
  else
    let out := part000BulkLoop dbErr rooms updates
    if out.2.failed > 0 then
      (.multiStatus (out.2.success != 0) "Update partially completed" out.2, out.1)
    else (.okAll "All rooms updated successfully.", out.1)

/-- A request whose fields are all absent; concrete requests below
override the fields they need. -/
def baseReq : Req :=
  { room_type := "", quantity := .undef, numberOfRooms := .undef, guest_name := .undef,
    full_name := .undef, phone := .undef, contact_number := .undef, check_in := .undef,
    check_out := .undef, total_amount := .undef, payment_channel := .undef,
    reference_number := .undef, transaction_id := .undef, valid_id := .undef,
    validIdAlias := .undef, coming_with_id := .undef, additional_requests := .undef }

/-- A request for 2 rooms of type Suite. -/
def reqSuite2 : Req := { baseReq with room_type := "Suite", quantity := .num (.int 2) }

/-- A request for rooms of type Suite with an unparseable quantity. -/
def reqAbc : Req := { baseReq with room_type := "Suite", quantity := .str "abc" }

/-! Lookup / update lemmas for the association-list ledger. -/

theorem findAvail_cons (p : String × Int) (l : Rooms) (rt : String) :
    findAvail (p :: l) rt = if p.1 = rt then some p.2 else findAvail l rt := by
  by_cases h : p.1 = rt
  · have hb : (p.1 == rt) = true := beq_iff_eq.mpr h
    simp [findAvail, List.find?, hb, h]
  · have hb : (p.1 == rt) = false := beq_eq_false_iff_ne.mpr h
    simp [findAvail, List.find?, hb, h]

theorem setAvail_cons (p : String × Int) (l : Rooms) (rt : String) (v : Int) :
    setAvail (p :: l) rt v = (if p.1 = rt then (p.1, v) else p) :: setAvail l rt v := by
  simp [setAvail]

theorem findAvail_setAvail_self (rooms : Rooms) (rt : String) (v : Int) :
    ∀ n, findAvail rooms rt = some n → findAvail (setAvail rooms rt v) rt = some v := by
  induction rooms with
  | nil => intro n h; simp [findAvail] at h
  | cons p l ih =>
    intro n h
    rw [findAvail_cons] at h
    rw [setAvail_cons]
    by_cases hp : p.1 = rt
    · simp [findAvail_cons, hp]
    · rw [if_neg hp, findAvail_cons, if_neg hp]
      rw [if_neg hp] at h
      exact ih n h

theorem findAvail_setAvail_ne (rooms : Rooms) (rt k : String) (v : Int) (h : k ≠ rt) :
    findAvail (setAvail rooms rt v) k = findAvail rooms k := by
  induction rooms with
  | nil => simp [findAvail, setAvail]
  | cons p l ih =>
    rw [setAvail_cons]
    by_cases hp : p.1 = rt
    · have hk : ¬ p.1 = k := by rw [hp]; exact fun hc => h hc.symm
      rw [if_pos hp, findAvail_cons, findAvail_cons]
      simp only [hk, if_neg]
      simpa using ih
    · rw [if_neg hp, findAvail_cons, findAvail_cons]
      by_cases hk : p.1 = k
      · rw [if_pos hk, if_pos hk]
      · rw [if_neg hk, if_neg hk]; exact ih

/-- Decrementing a room and then writing back the captured value leaves
every lookup unchanged. -/
theorem findAvail_set_set_restore (rooms : Rooms) (rt : String) (n v : Int)
    (h : findAvail rooms rt = some n) :
    ∀ k, findAvail (setAvail (setAvail rooms rt v) rt n) k = findAvail rooms k := by
  intro k
  by_cases hk : k = rt
  · subst hk
    rw [findAvail_setAvail_self (setAvail rooms k v) k n
      v (findAvail_setAvail_self rooms k v n h), h]
  · rw [findAvail_setAvail_ne _ _ _ _ hk, findAvail_setAvail_ne _ _ _ _ hk]

/-- Each loop iteration of part_000's bulk update accounts for exactly
one entry, as a success or as a failure. -/
theorem part000Step_count (dbErr : String → Option String) (acc : Rooms × Stats)
    (u : String × JSVal) :
    (part000Step dbErr acc u).2.success + (part000Step dbErr acc u).2.failed =
      acc.2.success + acc.2.failed + 1 := by
  simp only [part000Step]
  cases hp : parseIntJS u.2 with
  | nan => simp; omega
  | int v =>
    cases hd : dbErr (jsTrim u.1) with
    | none => simp; omega
    | some e => simp; omega

/-- The bulk-update loop accounts for every entry of the update list. -/
theorem part000Loop_aux (dbErr : String → Option String) :
    ∀ (updates : List (String × JSVal)) (acc : Rooms × Stats),
      (updates.foldl (part000Step dbErr) acc).2.success +
        (updates.foldl (part000Step dbErr) acc).2.failed =
      acc.2.success + acc.2.failed + updates.length := by
  intro updates
  induction updates with
  | nil => intro acc; simp
  | cons u l ih =>
    intro acc
    rw [List.foldl_cons, ih, part000Step_count, List.length_cons]
    omega

/-! The claims. -/

/-- C1: in the `server.js` booking handler, for a room type present in
the ledger with available = N and requested quantity q (after the code's
defaulting of the quantity field), a request with q ≤ N succeeds, leaves
available = N − q and appends the booking record, while a request with
q > N is rejected as sold out (InsufficientStock) with the ledger and
the booking list unchanged. -/
theorem C1_reserve_decrement_or_insufficient (rooms : Rooms) (bookings : List SbRecord)
    (b : Req) (N : Int) (h : findAvail rooms b.room_type = some N) :
    (jsNumOr (parseIntJS b.quantity) 1 ≤ N →
      (serverJsBooking noFail rooms bookings b).1 = .ok "Booking confirmed" ∧
      findAvail (serverJsBooking noFail rooms bookings b).2.1 b.room_type =
        some (N - jsNumOr (parseIntJS b.quantity) 1) ∧
      (serverJsBooking noFail rooms bookings b).2.2 =
        bookings ++ [mkSbRecord b (jsNumOr (parseIntJS b.quantity) 1)]) ∧
    (N < jsNumOr (parseIntJS b.quantity) 1 →
      (serverJsBooking noFail rooms bookings b).1 = .badRequest "Room category sold out" ∧
      (serverJsBooking noFail rooms bookings b).2.1 = rooms ∧
      (serverJsBooking noFail rooms bookings b).2.2 = bookings) := by
  constructor
  · intro hle
    have hnlt : ¬ (N < jsNumOr (parseIntJS b.quantity) 1) := not_lt.mpr hle
    simp only [serverJsBooking, h, noFail, hnlt, if_neg]
    exact ⟨rfl, findAvail_setAvail_self rooms b.room_type _ N h, rfl⟩
  · intro hlt
    simp [serverJsBooking, h, noFail, hlt]

/-- Witness for C1: Suite with available 3, quantity 2 → success and
available 1. -/
theorem C1_witness :
    findAvail [("Suite", 3)] reqSuite2.room_type = some 3 ∧
    ((serverJsBooking noFail [("Suite", 3)] [] reqSuite2).1 = .ok "Booking confirmed" ∧
      findAvail (serverJsBooking noFail [("Suite", 3)] [] reqSuite2).2.1
        reqSuite2.room_type = some (3 - jsNumOr (parseIntJS reqSuite2.quantity) 1) ∧
      (serverJsBooking noFail [("Suite", 3)] [] reqSuite2).2.2 =
        [] ++ [mkSbRecord reqSuite2 (jsNumOr (parseIntJS reqSuite2.quantity) 1)]) :=
  ⟨by decide,
    (C1_reserve_decrement_or_insufficient [("Suite", 3)] [] reqSuite2 3 (by decide)).1
      (by decide)⟩

/-- C2 fails as stated: when the insert fails and the compensating
write also fails, the handler still answers the 500 wrapping the insert
error, but Suite's available count ends at 3 instead of its pre-reserve
value 5 — persistence failure alone does not guarantee restoration. -/
theorem C2_counterexample_failed_compensation :
    (serverJsBooking ⟨none, some "ins", some "rb"⟩ [("Suite", 5)] [] reqSuite2).1 =
      .serverError "Internal server error" "ins" ∧
    findAvail (serverJsBooking ⟨none, some "ins", some "rb"⟩
      [("Suite", 5)] [] reqSuite2).2.1 "Suite" = some 3 ∧
    ¬ ((3 : Int) = 5) :=
  ⟨by decide, by decide, by decide⟩

/-- C2 (amended): in the `server.js` booking handler, when the record
insert fails after a successful decrement and the compensating write
succeeds, every room's available count ends at its pre-reserve value,
no booking is stored, and the caller receives the 500 error wrapping
the insert failure (PersistenceFailure), not a silent success; when the
compensating write also fails, the count remains decremented. -/
theorem C2_persistence_failure_compensation (rooms : Rooms) (bookings : List SbRecord)
    (b : Req) (N : Int) (e : String) (h : findAvail rooms b.room_type = some N)
    (hq : jsNumOr (parseIntJS b.quantity) 1 ≤ N) :
    (serverJsBooking ⟨none, some e, none⟩ rooms bookings b).1 =
      .serverError "Internal server error" e ∧
    (∀ k, findAvail (serverJsBooking ⟨none, some e, none⟩ rooms bookings b).2.1 k =
      findAvail rooms k) ∧
    (serverJsBooking ⟨none, some e, none⟩ rooms bookings b).2.2 = bookings := by
  have hnlt : ¬ (N < jsNumOr (parseIntJS b.quantity) 1) := not_lt.mpr hq
  simp only [serverJsBooking, h, hnlt, if_neg]
  exact ⟨rfl, findAvail_set_set_restore rooms b.room_type N _ h, rfl⟩

/-- Witness for C2: insert fails on a Suite booking for 2 of 3 →
500 wrapping the cause and Suite back at 3. -/
theorem C2_witness :
    findAvail [("Suite", 3)] reqSuite2.room_type = some 3 ∧
    jsNumOr (parseIntJS reqSuite2.quantity) 1 ≤ 3 ∧
    ((serverJsBooking ⟨none, some "db down", none⟩ [("Suite", 3)] [] reqSuite2).1 =
      .serverError "Internal server error" "db down" ∧
    findAvail (serverJsBooking ⟨none, some "db down", none⟩
      [("Suite", 3)] [] reqSuite2).2.1 "Suite" = findAvail [("Suite", 3)] "Suite" ∧
    (serverJsBooking ⟨none, some "db down", none⟩ [("Suite", 3)] [] reqSuite2).2.2 =
      ([] : List SbRecord)) :=
  ⟨by decide, by decide,
    (C2_persistence_failure_compensation [("Suite", 3)] [] reqSuite2 3 "db down"
      (by decide) (by decide)).1,
    (C2_persistence_failure_compensation [("Suite", 3)] [] reqSuite2 3 "db down"
      (by decide) (by decide)).2.1 "Suite",
    (C2_persistence_failure_compensation [("Suite", 3)] [] reqSuite2 3 "db down"
      (by decide) (by decide)).2.2⟩

/-- C3 fails as stated: in the file-store variant, a booking request for
a room type absent from the availability cache is not rejected at all —
the stock-check block is skipped and the booking is accepted and stored. -/
theorem C3_counterexample_filestore_accepts_unknown_room :
    fsFind [("Suite", JSNum.int 3)] "Penthouse" = none ∧
    fileStoreBooking [("Suite", JSNum.int 3)] []
        { baseReq with room_type := "Penthouse", quantity := .num (.int 2) } =
      (.ok { room_type := "Penthouse", quantity := .num (.int 2), check_in := .undef,
             check_out := .undef, guest_name := .undef, contact_number := .undef,
             valid_id := .undef, total_amount := .undef, payment_channel := .undef,
             reference_number := .undef, additional_requests := .undef },
        [("Suite", JSNum.int 3)],
        [{ room_type := "Penthouse", quantity := .num (.int 2), check_in := .undef,
           check_out := .undef, guest_name := .undef, contact_number := .undef,
           valid_id := .undef, total_amount := .undef, payment_channel := .undef,
           reference_number := .undef, additional_requests := .undef }]) := by
  constructor
  · decide
  · decide

/-- C3 (amended): in the `server.js` handler, a request whose room type
has no row in the rooms table fails with the 404 RoomTypeNotFound
rejection, for every storage-failure pattern, with the ledger and the
stored bookings unchanged; in part_001 the failed `.single()` lookup is
instead thrown and converted into the generic 500
`'Failed to process booking'` wrapping the storage client's message —
for every such message, never the RoomTypeNotFound rejection — with the
state unchanged; the file-store variant accepts such requests outright. -/
theorem C3_unknown_room_rejected_or_converted :
    (∀ (f : SbFail) (rooms : Rooms) (bookings : List SbRecord) (b : Req),
      findAvail rooms b.room_type = none →
      serverJsBooking f rooms bookings b =
        (.notFound "Room type not found", rooms, bookings)) ∧
    (∀ (f : SbFail) (fetchErr : String) (rooms : FsRooms) (bookings : List P1Record)
      (b : Req), fsFind rooms b.room_type = none →
      part001Booking f fetchErr rooms bookings b =
        (.serverError "Failed to process booking" fetchErr, rooms, bookings)) := by
  constructor
  · intro f rooms bookings b h
    simp [serverJsBooking, h]
  · intro f fetchErr rooms bookings b h
    simp [part001Booking, h]

/-- Witness for the amended C3: Penthouse is not in the table → 404 in
`server.js`, generic 500 in part_001. -/
theorem C3_witness :
    findAvail [("Suite", 3)]
      ({ baseReq with room_type := "Penthouse" } : Req).room_type = none ∧
    serverJsBooking noFail [("Suite", 3)] [] { baseReq with room_type := "Penthouse" } =
      (.notFound "Room type not found", [("Suite", 3)], []) ∧
    fsFind [("Suite", JSNum.int 3)]
      ({ baseReq with room_type := "Penthouse" } : Req).room_type = none ∧
    part001Booking noFail "no rows returned" [("Suite", JSNum.int 3)] []
        { baseReq with room_type := "Penthouse" } =
      (.serverError "Failed to process booking" "no rows returned",
        [("Suite", JSNum.int 3)], []) :=
  ⟨by decide,
    C3_unknown_room_rejected_or_converted.1 noFail [("Suite", 3)] []
      { baseReq with room_type := "Penthouse" } (by decide),
    by decide,
    C3_unknown_room_rejected_or_converted.2 noFail "no rows returned"
      [("Suite", JSNum.int 3)] [] { baseReq with room_type := "Penthouse" } (by decide)⟩

/-- C4 fails as stated: `server.js`'s bulk update stores a negative
count unchanged (`parseInt(count) || 0` only replaces NaN and 0), so the
stored available value is not coerced to ≥ 0. -/
theorem C4_counterexample_negative_count_stored :
    serverJsBulkUpdate (fun _ => none) [("Suite", 5)] [("Suite", .num (.int (-3)))] =
      (.okAll "All rooms synced", [("Suite", -3)]) ∧ ¬ (0 ≤ (-3 : Int)) := by
  constructor
  · decide
  · decide

/-- C4 (amended): `server.js`'s bulk update writes
`parseInt(count) || 0` for each entry — a non-numeric count is coerced
to 0 (which is ≥ 0), but a negative numeric count is stored unchanged,
so the non-negativity invariant is not enforced. -/
theorem C4_nonnumeric_coerced_to_zero (rooms : Rooms) (rt : String) (count : JSVal)
    (N : Int) (h : findAvail rooms (jsTrim rt) = some N) :
    findAvail (serverJsBulkUpdate (fun _ => none) rooms [(rt, count)]).2 (jsTrim rt) =
      some (jsNumOr (parseIntJS count) 0) ∧
    (parseIntJS count = .nan → jsNumOr (parseIntJS count) 0 = 0) := by
  constructor
  · simp only [serverJsBulkUpdate, List.foldl_cons, List.foldl_nil, List.isEmpty_nil]
    exact findAvail_setAvail_self rooms (jsTrim rt) _ N h
  · intro hn; rw [hn]; rfl

/-- Witness for the amended C4: a non-numeric count for Suite stores 0. -/
theorem C4_witness :
    findAvail [("Suite", 5)] (jsTrim "Suite") = some 5 ∧
    (findAvail (serverJsBulkUpdate (fun _ => none) [("Suite", 5)]
        [("Suite", .str "abc")]).2 (jsTrim "Suite") =
      some (jsNumOr (parseIntJS (.str "abc")) 0) ∧
    (parseIntJS (.str "abc") = .nan → jsNumOr (parseIntJS (.str "abc")) 0 = 0)) :=
  ⟨by decide,
    C4_nonnumeric_coerced_to_zero [("Suite", 5)] "Suite" (.str "abc") 5 (by decide)⟩

/-- C5 fails as stated: when both the insert and the compensating
rollback write fail, the `server.js` handler's response is identical to
the response when the rollback succeeds — only the original persistence
failure is reported, the rollback failure is swallowed, and the ledger
is left short (Suite at 1 instead of 3). -/
theorem C5_counterexample_rollback_failure_swallowed :
    (serverJsBooking ⟨none, some "insert failed", some "rollback failed"⟩
        [("Suite", 3)] [] reqSuite2).1 =
      (serverJsBooking ⟨none, some "insert failed", none⟩ [("Suite", 3)] [] reqSuite2).1 ∧
    (serverJsBooking ⟨none, some "insert failed", some "rollback failed"⟩
        [("Suite", 3)] [] reqSuite2).1 =
      .serverError "Internal server error" "insert failed" ∧
    findAvail (serverJsBooking ⟨none, some "insert failed", some "rollback failed"⟩
        [("Suite", 3)] [] reqSuite2).2.1 "Suite" = some 1 :=
  ⟨by decide, by decide, by decide⟩

/-- C5 (amended): when the rollback write also fails, the caller
receives only the original persistence failure as the 500's details,
and the room's available count remains decremented by the reserved
quantity. -/
theorem C5_only_persistence_failure_reported (rooms : Rooms) (bookings : List SbRecord)
    (b : Req) (N : Int) (e e' : String) (h : findAvail rooms b.room_type = some N)
    (hq : jsNumOr (parseIntJS b.quantity) 1 ≤ N) :
    (serverJsBooking ⟨none, some e, some e'⟩ rooms bookings b).1 =
      .serverError "Internal server error" e ∧
    findAvail (serverJsBooking ⟨none, some e, some e'⟩ rooms bookings b).2.1 b.room_type =
      some (N - jsNumOr (parseIntJS b.quantity) 1) := by
  have hnlt : ¬ (N < jsNumOr (parseIntJS b.quantity) 1) := not_lt.mpr hq
  simp only [serverJsBooking, h, hnlt, if_neg]
  exact ⟨rfl, findAvail_setAvail_self rooms b.room_type _ N h⟩

/-- Witness for the amended C5. -/
theorem C5_witness :
    findAvail [("Suite", 3)] reqSuite2.room_type = some 3 ∧
    jsNumOr (parseIntJS reqSuite2.quantity) 1 ≤ 3 ∧
    ((serverJsBooking ⟨none, some "ins", some "rb"⟩ [("Suite", 3)] [] reqSuite2).1 =
      .serverError "Internal server error" "ins" ∧
    findAvail (serverJsBooking ⟨none, some "ins", some "rb"⟩
        [("Suite", 3)] [] reqSuite2).2.1 reqSuite2.room_type =
      some (3 - jsNumOr (parseIntJS reqSuite2.quantity) 1)) :=
  ⟨by decide, by decide,
    C5_only_persistence_failure_reported [("Suite", 3)] [] reqSuite2 3 "ins" "rb"
      (by decide) (by decide)⟩

/-- C6 fails as stated: on the spec's scenario, `server.js`'s bulk
update coerces BadRoom's non-numeric count to 0, applies it, and
reports overall success — BadRoom is not reported as a failure. -/
theorem C6_counterexample_serverjs_nonnumeric_success :
    serverJsBulkUpdate (fun _ => none) [("Suite", 1), ("BadRoom", 7)]
        [("Suite", .num (.int 5)), ("BadRoom", .str "abc")] =
      (.okAll "All rooms synced", [("Suite", 5), ("BadRoom", 0)]) := by
  decide

/-- C6 (amended): part_000's Supabase bulk update processes every entry
independently (each entry is counted exactly once as a success or a
failure, so it never aborts early), and on the scenario
`{"Suite": 5, "BadRoom": "abc"}` it reports one success and one failure
`"BadRoom: Invalid number"` while Suite's available becomes 5;
`server.js` instead coerces the non-numeric count to 0 and reports it
as a success. -/
theorem C6_part000_independent_entries :
    (∀ (dbErr : String → Option String) (rooms : Rooms) (updates : List (String × JSVal)),
      (part000BulkLoop dbErr rooms updates).2.success +
        (part000BulkLoop dbErr rooms updates).2.failed = updates.length) ∧
    part000BulkUpdate (fun _ => none) [("Suite", 1), ("BadRoom", 7)]
        [("Suite", .num (.int 5)), ("BadRoom", .str "abc")] =
      (.multiStatus true "Update partially completed" ⟨1, 1, ["BadRoom: Invalid number"]⟩,
        [("Suite", 5), ("BadRoom", 7)]) := by
  constructor
  · intro dbErr rooms updates
    rw [part000BulkLoop, part000Loop_aux]
    simp
  · decide

/-- C7 fails as stated: in the file-store variant, an unparseable
quantity string is not treated as 1 — `parseInt` yields NaN, every
comparison with NaN is false so the stock check passes regardless of
stock, the booking is accepted, and Suite's available becomes NaN
instead of 2. -/
theorem C7_counterexample_filestore_nan_quantity :
    fileStoreBooking [("Suite", JSNum.int 3)] []
        { baseReq with room_type := "Suite", quantity := .str "abc" } =
      (.ok { room_type := "Suite", quantity := .str "abc", check_in := .undef,
             check_out := .undef, guest_name := .undef, contact_number := .undef,
             valid_id := .undef, total_amount := .undef, payment_channel := .undef,
             reference_number := .undef, additional_requests := .undef },
        [("Suite", JSNum.nan)],
        [{ room_type := "Suite", quantity := .str "abc", check_in := .undef,
           check_out := .undef, guest_name := .undef, contact_number := .undef,
           valid_id := .undef, total_amount := .undef, payment_channel := .undef,
           reference_number := .undef, additional_requests := .undef }]) ∧
    JSNum.nan ≠ JSNum.int 2 := by
  constructor
  · decide
  · decide

/-- C7 (amended): in the `server.js` handler, a booking request whose
quantity field is omitted or does not parse as a number behaves exactly
like the same request with quantity 1 — the stock check and the
decrement both use quantity 1; the file-store variant instead lets the
NaN through. -/
theorem C7_serverjs_quantity_defaults_to_one (f : SbFail) (rooms : Rooms)
    (bookings : List SbRecord) (b : Req) (h : parseIntJS b.quantity = .nan) :
    serverJsBooking f rooms bookings b =
      serverJsBooking f rooms bookings { b with quantity := .num (.int 1) } := by
  have h1 : jsNumOr (parseIntJS b.quantity) 1 = 1 := by rw [h]; rfl
  have h2 : jsNumOr (parseIntJS (JSVal.num (JSNum.int 1))) 1 = 1 := rfl
  simp only [serverJsBooking, mkSbRecord, serverJsComingWithId, h1, h2]

/-- Witness for the amended C7: quantity `"abc"` behaves as quantity 1. -/
theorem C7_witness :
    parseIntJS reqAbc.quantity = .nan ∧
    serverJsBooking noFail [("Suite", 3)] [] reqAbc =
      serverJsBooking noFail [("Suite", 3)] [] { reqAbc with quantity := .num (.int 1) } :=
  ⟨by decide, C7_serverjs_quantity_defaults_to_one noFail [("Suite", 3)] [] reqAbc (by decide)⟩

/-- C8: for a room type with available = N and any quantity q ≤ N, the
handlers' check-and-decrement (`reserve`) succeeds leaving N − q, and
the compensating write-back of the captured value (`release`, the
code's rollback, equivalent to adding q back) restores every room's
available count to its original value. -/
theorem C8_reserve_release_roundtrip (rooms : Rooms) (rt : String) (N q : Int)
    (h : findAvail rooms rt = some N) (hq : q ≤ N) :
    reserve rooms rt q = some (N, setAvail rooms rt (N - q)) ∧
    ∀ k, findAvail (release (setAvail rooms rt (N - q)) rt N) k = findAvail rooms k := by
  have hnlt : ¬ (N < q) := not_lt.mpr hq
  constructor
  · simp [reserve, h, hnlt]
  · exact findAvail_set_set_restore rooms rt N (N - q) h

/-- Witness for C8: Suite at 3, reserve 2, release → back at 3. -/
theorem C8_witness :
    findAvail [("Suite", 3)] "Suite" = some 3 ∧ (2 : Int) ≤ 3 ∧
    (reserve [("Suite", 3)] "Suite" 2 = some (3, setAvail [("Suite", 3)] "Suite" (3 - 2)) ∧
    findAvail (release (setAvail [("Suite", 3)] "Suite" (3 - 2)) "Suite" 3) "Suite" =
      findAvail [("Suite", 3)] "Suite") :=
  ⟨by decide, by decide,
    (C8_reserve_release_roundtrip [("Suite", 3)] "Suite" 3 2 (by decide) (by decide)).1,
    (C8_reserve_release_roundtrip [("Suite", 3)] "Suite" 3 2 (by decide) (by decide)).2
      "Suite"⟩

/-- C9 fails as stated: `server.js` rejects an insufficient-stock
request with the fixed message "Room category sold out", which does not
contain the remaining count (here 2). -/
theorem C9_counterexample_serverjs_message_without_count :
    (serverJsBooking noFail [("Suite", 2)] []
      { baseReq with room_type := "Suite", quantity := .num (.int 5) }).1 =
        .badRequest "Room category sold out" ∧
    ¬ List.IsInfix (String.data "2") (String.data "Room category sold out") := by
  constructor
  · decide
  · decide

/-- C9 (amended): the file-store variant's insufficient-stock rejection
does include the remaining count in its message ("Sorry, not enough
rooms. Only N left for R."); `server.js` answers with a fixed message
without the count. -/
theorem C9_filestore_message_includes_count (rooms : FsRooms) (bookings : List FsBooking)
    (b : Req) (N q : Int) (h : fsFind rooms b.room_type = some (.int N))
    (hq : parseIntJS (jsOr (jsOr b.numberOfRooms b.quantity) (.num (.int 1))) = .int q)
    (hlt : N < q) :
    (fileStoreBooking rooms bookings b).1 =
      .badRequest ("Sorry, not enough rooms. Only " ++ toString N ++
        " left for " ++ b.room_type ++ ".") ∧
    List.IsInfix (String.data (toString N))
      (String.data ("Sorry, not enough rooms. Only " ++ toString N ++
        " left for " ++ b.room_type ++ ".")) := by
  constructor
  · have hbool : jsLt (JSNum.int N) (JSNum.int q) = true := by
      simp [jsLt]; exact hlt
    simp only [fileStoreBooking, h, hq, hbool, if_pos, jsNumToStr]
  · exact ⟨String.data "Sorry, not enough rooms. Only ",
      String.data (" left for " ++ b.room_type ++ "."), by simp⟩

/-- Witness for the amended C9: Suite at 1, request for 2 → message
contains the remaining count 1. -/
theorem C9_witness :
    fsFind [("Suite", JSNum.int 1)] reqSuite2.room_type = some (.int 1) ∧
    parseIntJS (jsOr (jsOr reqSuite2.numberOfRooms reqSuite2.quantity)
      (.num (.int 1))) = .int 2 ∧ (1 : Int) < 2 ∧
    ((fileStoreBooking [("Suite", JSNum.int 1)] [] reqSuite2).1 =
      .badRequest ("Sorry, not enough rooms. Only " ++ toString (1 : Int) ++
        " left for " ++ reqSuite2.room_type ++ ".") ∧
    List.IsInfix (String.data (toString (1 : Int)))
      (String.data ("Sorry, not enough rooms. Only " ++ toString (1 : Int) ++
        " left for " ++ reqSuite2.room_type ++ "."))) :=
  ⟨by decide, by decide, by decide,
    C9_filestore_message_includes_count [("Suite", JSNum.int 1)] [] reqSuite2 1 2
      (by decide) (by decide) (by decide)⟩

/-- C10: the persisted record's `coming_with_id` flag is true exactly
when `valid_id` is the exact string "Yes" (`server.js`), or — in the
part_001 variant — additionally when `coming_with_id` is boolean true or
the string "true" or the `'Valid Id'` alias field is "Yes"; any other
value, including lowercase "yes", yields false. -/
theorem C10_coming_with_id_semantics :
    (∀ b : Req, serverJsComingWithId b = true ↔ b.valid_id = .str "Yes") ∧
    (∀ b : Req, part001ComingWithId b = true ↔
      (b.coming_with_id = .bool true ∨ b.coming_with_id = .str "true" ∨
        b.validIdAlias = .str "Yes" ∨ b.valid_id = .str "Yes")) ∧
    serverJsComingWithId { baseReq with valid_id := .str "yes" } = false ∧
    part001ComingWithId { baseReq with valid_id := .str "yes" } = false := by
  refine ⟨?_, ?_, by decide, by decide⟩
  · intro b; simp [serverJsComingWithId]
  · intro b; simp [part001ComingWithId, or_assoc]

end SyfHotel
